import Mathlib

/-
Verification of the x402-firecrawl payment-gated request engine.

Shallow embedding of:
  - src/lib/services/x402Service.ts  (manual x402 flow, x402-fetch strategy,
    circuit breaker, dual-strategy searchNews), together with the variant
    of the same service whose manual flow resolves the chain id from the
    wallet client;
  - src/lib/services/newsService.ts  (getNewsByDateString, cacheNewsData);
  - src/lib/utils/news-parser.ts     (deduplicateArticles).

Times are unix values as in the source: Date.now() milliseconds for the
circuit breaker, Math.floor(Date.now()/1000) seconds for the payment
authorization.  Network and cryptographic effects (fetch, signTypedData)
are modelled by explicit oracle inputs describing what the upstream and
the wallet return, and each modelled function reports how many network
requests and signing operations it performed along the way.
-/

namespace X402News

/-! Data model, from src/lib/types/news.ts. -/

/-- The source field of a NewsArticle. -/
structure ArticleSource where
  name : String
  url : String
  favicon : Option String := none
deriving Repr, DecidableEq

/-- The metadata field of a NewsArticle; scrapedAt is a Date, modelled as
unix milliseconds. -/
structure ArticleMetadata where
  firecrawlId : String
  scrapedAt : Nat
  contentHash : String
deriving Repr, DecidableEq

/-- NewsArticle from src/lib/types/news.ts; publishedDate is an optional
Date, modelled as unix milliseconds. -/
structure NewsArticle where
  headline : String
  description : String
  source : ArticleSource
  publishedDate : Option Nat := none
  summary : String
  imageUrl : Option String := none
  metadata : ArticleMetadata
deriving Repr, DecidableEq

/-- One web result inside a FirecrawlSearchResponse. -/
structure FirecrawlWebResult where
  title : String
  description : String
  url : String
  markdown : String
  html : String
  rawHtml : String
  summary : String
  links : List String
deriving Repr, DecidableEq

/-- FirecrawlSearchResponse from src/lib/types/news.ts: data.web is the
article list; images and news are unused by the engine and omitted. -/
structure FirecrawlSearchResponse where
  success : Bool
  web : List FirecrawlWebResult
  warning : Option String := none
deriving Repr, DecidableEq

/-! Embedding of src/lib/services/x402Service.ts. -/

/-- The slice of x402Config the engine reads: payment.privateKey is
process.env.X402_PRIVATE_KEY and may be absent. -/
structure X402Config where
  privateKey : Option String
deriving Repr, DecidableEq

/-- PaymentRequirement offered by the upstream in the 402 challenge
(accepts[0]).  extraName and extraVersion model the optional
extra.name and extra.version signing-domain metadata. -/
structure PaymentRequirement where
  scheme : String
  network : String
  maxAmountRequired : String
  payTo : String
  asset : String
  maxTimeoutSeconds : Option Nat := none
  extraName : Option String := none
  extraVersion : Option String := none
deriving Repr, DecidableEq

/-- The transferWithAuthorization message the manual flow signs.  The
source stores validAfter and validBefore as decimal strings of these
numbers; the numeric values are kept here. -/
structure TransferAuthorization where
  fromAddr : String
  toAddr : String
  value : String
  validAfter : Nat
  validBefore : Nat
  nonce : String
deriving Repr, DecidableEq

/-- Authorization builder of makePaymentRequestX402Standard (x402Service.ts
lines 43-47 and 69-76): validAfter = now - 600 (ten minutes before now),
validBefore = now + (maxTimeoutSeconds or 3600), value and recipient
copied from the requirement. -/
def buildAuthorization (req : PaymentRequirement) (accountAddress : String)
    (now : Nat) (nonce : String) : TransferAuthorization :=
  { fromAddr := accountAddress
    toAddr := req.payTo
    value := req.maxAmountRequired
    validAfter := now - 600
    validBefore := now + req.maxTimeoutSeconds.getD 3600
    nonce := nonce }

/-- EIP-712 signing domain for transferWithAuthorization. -/
structure EIP712Domain where
  name : String
  version : String
  chainId : Nat
  verifyingContract : String
deriving Repr, DecidableEq

/-- Domain construction in makePaymentRequestX402Standard, x402Service.ts
lines 50-55: chainId is the literal 8453 (Base mainnet). -/
def signingDomain (req : PaymentRequirement) : EIP712Domain :=
  { name := req.extraName.getD "USD Coin"
    version := req.extraVersion.getD "2"
    chainId := 8453
    verifyingContract := req.asset }

/-- Domain construction in the variant service file: chainId is the value
returned by walletClient.getChainId(), passed here as walletChainId. -/
def signingDomainVariant (req : PaymentRequirement) (walletChainId : Nat) :
    EIP712Domain :=
  { name := req.extraName.getD "USD Coin"
    version := req.extraVersion.getD "2"
    chainId := walletChainId
    verifyingContract := req.asset }

/-- Outcome and observable effects of one strategy attempt: the value
returned or the message of the Error thrown, the number of fetch calls
issued, and the number of signTypedData operations performed. -/
structure Attempt where
  outcome : Except String FirecrawlSearchResponse
  networkCalls : Nat
  signings : Nat

/-- What the upstream returns to the manual flow: the status of the
initial unauthenticated request, the challenge fields read when that
status is 402, the nonce drawn from randomBytes, and the status and
parsed body of the paid retry (finalErrorBody is JSON.stringify of the
error body when the retry is not a 200). -/
structure ManualEnv where
  initialStatus : Nat
  x402Version : Nat
  requirements : PaymentRequirement
  accountAddress : String
  nonce : String
  finalStatus : Nat
  finalBody : FirecrawlSearchResponse
  finalErrorBody : String

/-- makePaymentRequestX402Standard (x402Service.ts lines 10-136).
Throws when the private key is absent, before any fetch; issues the
unauthenticated request and throws on any status other than 402, before
building or signing anything; otherwise builds and signs the
authorization, retries with the X-PAYMENT header, and returns the parsed
body on 200 or throws the payment-failed error on anything else. -/
def makePaymentRequestX402Standard (cfg : X402Config) (env : ManualEnv)
    (nowSeconds : Nat) : Attempt :=
  match cfg.privateKey with
  | none =>
    { outcome := .error "X402_PRIVATE_KEY is required for payment functionality"
      networkCalls := 0, signings := 0 }
  | some _ =>
    if env.initialStatus ≠ 402 then
      { outcome := .error ("Expected 402 Payment Required, got " ++ toString env.initialStatus)
        networkCalls := 1, signings := 0 }
    else
      let _auth := buildAuthorization env.requirements env.accountAddress nowSeconds env.nonce
      let _domain := signingDomain env.requirements
      if env.finalStatus = 200 then
        { outcome := .ok env.finalBody, networkCalls := 2, signings := 1 }
      else
        { outcome := .error ("Payment failed: " ++ toString env.finalStatus
            ++ " - " ++ env.finalErrorBody)
          networkCalls := 2, signings := 1 }

/-- What the call through wrapFetchWithPayment observably did: either the
wrapped fetch threw (payment handling failed) or a response came back
with the given status, parsed body and error text. -/
inductive WrappedFetchOutcome where
  | threw (msg : String)
  | responded (status : Nat) (body : FirecrawlSearchResponse) (text : String)

/-- searchNewsWithX402Fetch (x402Service.ts lines 139-201).  Throws when
the private key is absent, before any fetch; otherwise performs the
wrapped request and returns the parsed body when response.ok, throwing
the Firecrawl-API-error message otherwise. -/
def searchNewsWithX402Fetch (cfg : X402Config) (net : WrappedFetchOutcome) : Attempt :=
  match cfg.privateKey with
  | none =>
    { outcome := .error "X402_PRIVATE_KEY is required for payment functionality"
      networkCalls := 0, signings := 0 }
  | some _ =>
    match net with
    | .threw msg => { outcome := .error msg, networkCalls := 1, signings := 0 }
    | .responded status body text =>
      if 200 ≤ status ∧ status < 300 then
        { outcome := .ok body, networkCalls := 1, signings := 0 }
      else
        { outcome := .error ("Firecrawl API error: " ++ toString status ++ " - " ++ text)
          networkCalls := 1, signings := 0 }

/-- CIRCUIT_BREAKER_DELAY, x402Service.ts line 206: one minute in
milliseconds. -/
def CIRCUIT_BREAKER_DELAY : Nat := 60000

/-- MAX_FAILURES, x402Service.ts line 207. -/
def MAX_FAILURES : Nat := 3

/-- The two module-level mutable variables lastFailureTime and
failureCount, gathered into one state record. -/
structure CircuitState where
  failureCount : Nat
  lastFailureTime : Nat
deriving Repr, DecidableEq

/-- The cooling-down error message thrown by searchNews, x402Service.ts
line 220. -/
def cooldownMessage (waitTime : Nat) : String :=
  "Payment system cooling down. Please wait " ++ toString waitTime
    ++ " seconds before retrying. This prevents rapid API calls to Firecrawl."

/-- The combined error message thrown when both strategies fail,
x402Service.ts line 258 (CIRCUIT_BREAKER_DELAY/1000 = 60). -/
def bothFailedMessage : String :=
  "Both x402-fetch and manual payment approaches failed. System will pause for "
    ++ toString (CIRCUIT_BREAKER_DELAY / 1000) ++ "s to prevent rapid API calls."

/-- Result of one searchNews call: what it returned or threw, the circuit
state left behind, which strategies were invoked, and the total network
and signing effects. -/
structure SearchCallResult where
  outcome : Except String FirecrawlSearchResponse
  state : CircuitState
  fetchAttempted : Bool
  manualAttempted : Bool
  networkCalls : Nat
  signings : Nat

/-- searchNews (x402Service.ts lines 209-261).  now is Date.now() in
milliseconds at entry; nowSeconds is the epoch-seconds clock the manual
flow reads.  The circuit-breaker gate throws the cooling-down error with
waitTime = Math.ceil((CIRCUIT_BREAKER_DELAY - (now - lastFailureTime))/1000)
before invoking either strategy.  Otherwise the x402-fetch strategy runs
first; on success failureCount is reset to 0.  On its failure
failureCount is incremented and lastFailureTime set to now, then the
manual strategy runs; on its success failureCount is reset to 0, and on
its failure failureCount is incremented a second time and the combined
error is thrown. -/
def searchNews (st : CircuitState) (now : Nat) (cfg : X402Config)
    (net : WrappedFetchOutcome) (env : ManualEnv) (nowSeconds : Nat) : SearchCallResult :=
  if st.failureCount ≥ MAX_FAILURES ∧ now - st.lastFailureTime < CIRCUIT_BREAKER_DELAY then
    { outcome := .error (cooldownMessage
        ((CIRCUIT_BREAKER_DELAY - (now - st.lastFailureTime) + 999) / 1000))
      state := st
      fetchAttempted := false, manualAttempted := false
      networkCalls := 0, signings := 0 }
  else
    match (searchNewsWithX402Fetch cfg net).outcome with
    | .ok r =>
      { outcome := .ok r
        state := { failureCount := 0, lastFailureTime := st.lastFailureTime }
        fetchAttempted := true, manualAttempted := false
        networkCalls := (searchNewsWithX402Fetch cfg net).networkCalls
        signings := (searchNewsWithX402Fetch cfg net).signings }
    | .error _ =>
      match (makePaymentRequestX402Standard cfg env nowSeconds).outcome with
      | .ok r =>
        { outcome := .ok r
          state := { failureCount := 0, lastFailureTime := now }
          fetchAttempted := true, manualAttempted := true
          networkCalls := (searchNewsWithX402Fetch cfg net).networkCalls
            + (makePaymentRequestX402Standard cfg env nowSeconds).networkCalls
          signings := (searchNewsWithX402Fetch cfg net).signings
            + (makePaymentRequestX402Standard cfg env nowSeconds).signings }
      | .error _ =>
        { outcome := .error bothFailedMessage
          state := { failureCount := st.failureCount + 1 + 1, lastFailureTime := now }
          fetchAttempted := true, manualAttempted := true
          networkCalls := (searchNewsWithX402Fetch cfg net).networkCalls
            + (makePaymentRequestX402Standard cfg env nowSeconds).networkCalls
          signings := (searchNewsWithX402Fetch cfg net).signings
            + (makePaymentRequestX402Standard cfg env nowSeconds).signings }

/-! Embedding of src/lib/utils/news-parser.ts, deduplicateArticles. -/

/-- Loop of deduplicateArticles (news-parser.ts lines 516-529): seen is
the seenHashes set, modelled as the list of hashes added so far; an
article is kept exactly when its metadata.contentHash has not been seen,
and then its hash is added. -/
def deduplicateArticlesGo (seen : List String) : List NewsArticle → List NewsArticle
  | [] => []
  | a :: rest =>
    if a.metadata.contentHash ∈ seen then
      deduplicateArticlesGo seen rest
    else
      a :: deduplicateArticlesGo (a.metadata.contentHash :: seen) rest

/-- deduplicateArticles (news-parser.ts lines 516-529). -/
def deduplicateArticles (articles : List NewsArticle) : List NewsArticle :=
  deduplicateArticlesGo [] articles

/-! Embedding of src/lib/services/newsService.ts. -/

/-- ErrorCode from src/lib/types/news.ts. -/
inductive ErrorCode where
  | INVALID_DATE
  | NO_DATA_FOUND
  | PAYMENT_FAILED
  | FIRECRAWL_ERROR
  | DATABASE_ERROR
  | RATE_LIMITED
deriving Repr, DecidableEq

/-- NewsServiceError: the typed error thrown by the news service. -/
structure NewsServiceError where
  code : ErrorCode
  message : String
deriving Repr, DecidableEq

/-- The external world as getNewsByDateString sees it: whether
isValidNewsDate accepts the date, what getNewsByDate returns from the
cache (none models a null document, some its articles array), and the
outcome of fetchFreshNews. -/
structure NewsEnv where
  dateValid : Bool
  existing : Option (List NewsArticle)
  fetchResult : Except NewsServiceError (List NewsArticle)

/-- cacheNewsData (newsService.ts lines 132-149): one saveNewsForDate
write of the given article list (save errors are swallowed and do not
change what was written or returned). -/
def cacheNewsData (articles : List NewsArticle) : List (List NewsArticle) :=
  [articles]

/-- Result of getNewsByDateString: what it returned or threw, and the
list of cache writes it performed. -/
structure NewsCallResult where
  result : Except NewsServiceError (List NewsArticle)
  cacheWrites : List (List NewsArticle)

/-- getNewsByDateString (newsService.ts lines 21-68).  Invalid dates
throw INVALID_DATE.  A cached document with a non-empty articles array is
returned as is.  Otherwise fetchFreshNews runs; its NewsServiceError is
rethrown unchanged, and on success the fresh list is cached only when
non-empty (lines 46-51) and returned either way. -/
def getNewsByDateString (env : NewsEnv) : NewsCallResult :=
  if env.dateValid = false then
    { result := .error
        { code := .INVALID_DATE
          message := "Invalid date provided or date is too old/in the future" }
      cacheWrites := [] }
  else
    match env.existing with
    | some arts =>
      if 0 < arts.length then
        { result := .ok arts, cacheWrites := [] }
      else
        match env.fetchResult with
        | .error e => { result := .error e, cacheWrites := [] }
        | .ok fresh =>
          { result := .ok fresh
            cacheWrites := if 0 < fresh.length then cacheNewsData fresh else [] }
    | none =>
      match env.fetchResult with
      | .error e => { result := .error e, cacheWrites := [] }
      | .ok fresh =>
        { result := .ok fresh
          cacheWrites := if 0 < fresh.length then cacheNewsData fresh else [] }

/-! Concrete sample inputs, used by the closed witnesses and
counterexamples below. -/

/-- A configuration whose X402_PRIVATE_KEY is set. -/
def cfgWithKey : X402Config := { privateKey := some "0x1111" }

/-- A configuration whose X402_PRIVATE_KEY is absent. -/
def cfgNoKey : X402Config := { privateKey := none }

/-- A successful Firecrawl response body with no web results. -/
def sampleResponse : FirecrawlSearchResponse := { success := true, web := [] }

/-- The payment requirement of the spec scenario: amount 10000 to 0xABCD
in USDC on base, maxTimeoutSeconds 120. -/
def sampleRequirement : PaymentRequirement :=
  { scheme := "exact", network := "base", maxAmountRequired := "10000"
    payTo := "0xABCD", asset := "0xUSDC", maxTimeoutSeconds := some 120 }

/-- The same requirement advertised for the base-sepolia network. -/
def reqBaseSepolia : PaymentRequirement := { sampleRequirement with network := "base-sepolia" }

/-- A payer address for the authorization builder. -/
def addrSample : String := "0xFROM"

/-- An upstream that issues the 402 challenge and then rejects the paid
retry with another 402 whose body is the empty object. -/
def envRejected : ManualEnv :=
  { initialStatus := 402, x402Version := 1, requirements := sampleRequirement
    accountAddress := addrSample, nonce := "0x01"
    finalStatus := 402, finalBody := sampleResponse, finalErrorBody := "\x7b\x7d" }

/-- An upstream whose initial unauthenticated request already succeeds
with 200 instead of challenging. -/
def env200 : ManualEnv := { envRejected with initialStatus := 200 }

/-- An upstream that accepts the manual payment: 402 challenge, then 200. -/
def envPaid : ManualEnv := { envRejected with finalStatus := 200 }

/-- A news environment on the fresh-fetch path whose fetch comes back
empty: valid date, no cached document, fetch returns zero articles. -/
def envFreshEmpty : NewsEnv :=
  { dateValid := true, existing := none, fetchResult := .ok [] }

/-- A sample article with content hash h1. -/
def artA : NewsArticle :=
  { headline := "A", description := "dA"
    source := { name := "srcA", url := "https://a.example" }
    summary := "sA"
    metadata := { firecrawlId := "f1", scrapedAt := 0, contentHash := "h1" } }

/-- A different article carrying the same content hash h1 as artA. -/
def artB : NewsArticle :=
  { headline := "B", description := "dB"
    source := { name := "srcB", url := "https://b.example" }
    summary := "sB"
    metadata := { firecrawlId := "f2", scrapedAt := 1, contentHash := "h1" } }

/-! Claim C2: the circuit-breaker gate. -/

/-- C2: a searchNews call made while failureCount ≥ MAX_FAILURES and less
than CIRCUIT_BREAKER_DELAY milliseconds (60 seconds) have elapsed since
lastFailureTime throws the distinct cooling-down error carrying the
remaining wait in whole seconds, leaves the circuit state untouched,
attempts neither strategy, and performs no network request and no signing. -/
theorem searchNews_circuit_open (st : CircuitState) (now : Nat) (cfg : X402Config)
    (net : WrappedFetchOutcome) (env : ManualEnv) (nowSeconds : Nat)
    (hc : st.failureCount ≥ MAX_FAILURES)
    (he : now - st.lastFailureTime < CIRCUIT_BREAKER_DELAY) :
    searchNews st now cfg net env nowSeconds =
      { outcome := .error (cooldownMessage
          ((CIRCUIT_BREAKER_DELAY - (now - st.lastFailureTime) + 999) / 1000))
        state := st
        fetchAttempted := false, manualAttempted := false
        networkCalls := 0, signings := 0 } := by
  simp only [searchNews]
  rw [if_pos (And.intro hc he)]

/-- C2 witness: with three recorded failures at time 0 and the call at
30000 ms, the cooling-down error reports 30 seconds of remaining wait. -/
theorem searchNews_circuit_open_witness :
    searchNews ⟨3, 0⟩ 30000 cfgWithKey (WrappedFetchOutcome.threw "boom") envRejected 1700000000 =
      { outcome := .error (cooldownMessage ((CIRCUIT_BREAKER_DELAY - (30000 - 0) + 999) / 1000))
        state := ⟨3, 0⟩
        fetchAttempted := false, manualAttempted := false
        networkCalls := 0, signings := 0 } :=
  searchNews_circuit_open ⟨3, 0⟩ 30000 cfgWithKey (WrappedFetchOutcome.threw "boom")
    envRejected 1700000000 (by decide) (by decide)

/-! Claim C1: counter movement when both strategies fail. -/

/-- C1 counterexample: starting from a clean breaker, one call in which the
x402-fetch strategy throws and the manual strategy has its payment rejected
leaves failureCount at 2, not at 0 + 1 as the claim states. -/
theorem searchNews_single_increment_cex :
    ¬ (searchNews ⟨0, 0⟩ 100000 cfgWithKey (WrappedFetchOutcome.threw "boom")
        envRejected 1700000000).state.failureCount = 0 + 1 := by
  decide

/-- C1 (amended): a searchNews call that exhausts both strategies increments
failureCount by exactly two — once after each failed strategy — and throws
the unified both-strategies-failed error. -/
theorem searchNews_both_fail_increments (st : CircuitState) (now : Nat)
    (cfg : X402Config) (net : WrappedFetchOutcome) (env : ManualEnv)
    (nowSeconds : Nat) (ea eb : String)
    (hopen : ¬ (st.failureCount ≥ MAX_FAILURES ∧
      now - st.lastFailureTime < CIRCUIT_BREAKER_DELAY))
    (ha : (searchNewsWithX402Fetch cfg net).outcome = .error ea)
    (hb : (makePaymentRequestX402Standard cfg env nowSeconds).outcome = .error eb) :
    (searchNews st now cfg net env nowSeconds).state.failureCount = st.failureCount + 2 ∧
    (searchNews st now cfg net env nowSeconds).outcome = .error bothFailedMessage := by
  simp only [searchNews, if_neg hopen, ha, hb]
  exact ⟨trivial, trivial⟩

/-- C1 amended witness: the concrete both-fail call of the counterexample
ends with failureCount = 0 + 2 and the unified error. -/
theorem searchNews_both_fail_increments_witness :
    (searchNews ⟨0, 0⟩ 100000 cfgWithKey (WrappedFetchOutcome.threw "boom")
      envRejected 1700000000).state.failureCount = 0 + 2 ∧
    (searchNews ⟨0, 0⟩ 100000 cfgWithKey (WrappedFetchOutcome.threw "boom")
      envRejected 1700000000).outcome = .error bothFailedMessage :=
  searchNews_both_fail_increments ⟨0, 0⟩ 100000 cfgWithKey
    (WrappedFetchOutcome.threw "boom") envRejected 1700000000
    "boom" ("Payment failed: " ++ toString 402 ++ " - " ++ "\x7b\x7d")
    (by decide) rfl rfl

/-! Claim C3: behaviour when the signing key is absent. -/

/-- C3 counterexample: with X402_PRIVATE_KEY absent, a searchNews call does
retry via the manual fallback and increments the failure counter twice,
surfacing the combined error rather than the configuration error. -/
theorem searchNews_missing_key_cex :
    (searchNews ⟨0, 0⟩ 100000 cfgNoKey (WrappedFetchOutcome.threw "boom")
      envRejected 1700000000).manualAttempted = true ∧
    (searchNews ⟨0, 0⟩ 100000 cfgNoKey (WrappedFetchOutcome.threw "boom")
      envRejected 1700000000).state.failureCount = 2 ∧
    (searchNews ⟨0, 0⟩ 100000 cfgNoKey (WrappedFetchOutcome.threw "boom")
      envRejected 1700000000).outcome = .error bothFailedMessage := by
  refine ⟨rfl, rfl, rfl⟩

/-- C3 (amended): when the key is absent and the breaker is not blocking,
both strategies throw the configuration error before any network request or
signing, but searchNews still falls back to the manual strategy, increments
failureCount twice, and throws the combined both-strategies-failed error
instead of surfacing the configuration error. -/
theorem searchNews_missing_key (st : CircuitState) (now : Nat) (cfg : X402Config)
    (net : WrappedFetchOutcome) (env : ManualEnv) (nowSeconds : Nat)
    (hopen : ¬ (st.failureCount ≥ MAX_FAILURES ∧
      now - st.lastFailureTime < CIRCUIT_BREAKER_DELAY))
    (hkey : cfg.privateKey = none) :
    (searchNews st now cfg net env nowSeconds).outcome = .error bothFailedMessage ∧
    (searchNews st now cfg net env nowSeconds).state.failureCount = st.failureCount + 2 ∧
    (searchNews st now cfg net env nowSeconds).manualAttempted = true ∧
    (searchNews st now cfg net env nowSeconds).networkCalls = 0 ∧
    (searchNews st now cfg net env nowSeconds).signings = 0 := by
  simp only [searchNews, searchNewsWithX402Fetch, makePaymentRequestX402Standard,
    hkey, if_neg hopen]
  exact ⟨trivial, trivial, trivial, trivial, trivial⟩

/-- C3 amended witness: the concrete missing-key call of the counterexample,
obtained through the amended theorem. -/
theorem searchNews_missing_key_witness :
    (searchNews ⟨0, 0⟩ 100000 cfgNoKey (WrappedFetchOutcome.threw "boom")
      envRejected 1700000000).outcome = .error bothFailedMessage ∧
    (searchNews ⟨0, 0⟩ 100000 cfgNoKey (WrappedFetchOutcome.threw "boom")
      envRejected 1700000000).state.failureCount = 0 + 2 ∧
    (searchNews ⟨0, 0⟩ 100000 cfgNoKey (WrappedFetchOutcome.threw "boom")
      envRejected 1700000000).manualAttempted = true ∧
    (searchNews ⟨0, 0⟩ 100000 cfgNoKey (WrappedFetchOutcome.threw "boom")
      envRejected 1700000000).networkCalls = 0 ∧
    (searchNews ⟨0, 0⟩ 100000 cfgNoKey (WrappedFetchOutcome.threw "boom")
      envRejected 1700000000).signings = 0 :=
  searchNews_missing_key ⟨0, 0⟩ 100000 cfgNoKey (WrappedFetchOutcome.threw "boom")
    envRejected 1700000000 (by decide) rfl

/-! Claim C4: success resets the counter, also on fallback success. -/

/-- C4: whenever a non-blocked searchNews call has at least one strategy
succeed — the x402-fetch strategy directly, or the manual fallback after the
x402-fetch strategy failed — the call returns that successful result and
failureCount is 0 when the call completes. -/
theorem searchNews_success_resets (st : CircuitState) (now : Nat) (cfg : X402Config)
    (net : WrappedFetchOutcome) (env : ManualEnv) (nowSeconds : Nat)
    (r : FirecrawlSearchResponse)
    (hopen : ¬ (st.failureCount ≥ MAX_FAILURES ∧
      now - st.lastFailureTime < CIRCUIT_BREAKER_DELAY))
    (hsucc : (searchNewsWithX402Fetch cfg net).outcome = .ok r ∨
      ((∃ ea, (searchNewsWithX402Fetch cfg net).outcome = .error ea) ∧
        (makePaymentRequestX402Standard cfg env nowSeconds).outcome = .ok r)) :
    (searchNews st now cfg net env nowSeconds).outcome = .ok r ∧
    (searchNews st now cfg net env nowSeconds).state.failureCount = 0 := by
  rcases hsucc with h1 | ⟨⟨ea, ha⟩, hb⟩
  · simp only [searchNews, if_neg hopen, h1]
    exact ⟨trivial, trivial⟩
  · simp only [searchNews, if_neg hopen, ha, hb]
    exact ⟨trivial, trivial⟩

/-- C4 witness: with two failures on the books, the x402-fetch strategy
throwing and the manual fallback being paid and answered 200, the call
returns the fetched body and leaves failureCount at 0. -/
theorem searchNews_success_resets_witness :
    (searchNews ⟨2, 0⟩ 100000 cfgWithKey (WrappedFetchOutcome.threw "sig rejected")
      envPaid 1700000000).outcome = .ok sampleResponse ∧
    (searchNews ⟨2, 0⟩ 100000 cfgWithKey (WrappedFetchOutcome.threw "sig rejected")
      envPaid 1700000000).state.failureCount = 0 :=
  searchNews_success_resets ⟨2, 0⟩ 100000 cfgWithKey
    (WrappedFetchOutcome.threw "sig rejected") envPaid 1700000000 sampleResponse
    (by decide) (Or.inr ⟨⟨"sig rejected", rfl⟩, rfl⟩)

/-! Claim C5: the chainId of the manual signing domain. -/

/-- C5 counterexample: the manual strategy of x402Service.ts signs over a
domain whose chainId is 8453 even for a requirement advertised on the
base-sepolia network; the field is insensitive to the network context. -/
theorem signingDomain_hardcoded_cex :
    (signingDomain reqBaseSepolia).chainId = 8453 ∧
    reqBaseSepolia.network = "base-sepolia" ∧
    (signingDomain reqBaseSepolia).chainId = (signingDomain sampleRequirement).chainId :=
  ⟨rfl, rfl, rfl⟩

/-- C5 (amended): in x402Service.ts the manual signing domain always carries
the hard-coded constant 8453 as chainId, whatever the requirement says; only
the variant service file resolves the chainId dynamically, copying the value
reported by walletClient.getChainId(). -/
theorem signingDomain_chainId (req : PaymentRequirement) (walletChainId : Nat) :
    (signingDomain req).chainId = 8453 ∧
    (signingDomainVariant req walletChainId).chainId = walletChainId :=
  ⟨rfl, rfl⟩

/-! Claim C6: the authorization validity window. -/

/-- C6 counterexample: for the spec scenario (maxTimeoutSeconds 120 and
now = 1700000000) the builder does not produce validAfter = 1699999700:
its skew allowance is 600 seconds, not 300. -/
theorem buildAuthorization_skew_cex :
    ¬ (buildAuthorization sampleRequirement addrSample 1700000000 "0x01").validAfter
      = 1699999700 := by
  decide

/-- C6 (amended): for maxTimeoutSeconds = 120 and now = 1700000000 the
builder produces validAfter = 1699999400 (now minus a 600-second skew
tolerance) and validBefore = 1700000120, which does not exceed
now + maxTimeoutSeconds. -/
theorem buildAuthorization_timing :
    (buildAuthorization sampleRequirement addrSample 1700000000 "0x01").validAfter
      = 1699999400 ∧
    (buildAuthorization sampleRequirement addrSample 1700000000 "0x01").validBefore
      = 1700000120 ∧
    (buildAuthorization sampleRequirement addrSample 1700000000 "0x01").validBefore
      ≤ 1700000000 + 120 := by
  refine ⟨rfl, rfl, by decide⟩

/-! Claim C7: the non-402 path of the manual strategy. -/

/-- C7 counterexample: an initial 200 makes the manual strategy throw (zero
signings, so no payment logic ran), and inside searchNews that thrown error
is counted: the breaker counter ends at 2, so the non-402 outcome is treated
as a payment failure, contrary to the claim. -/
theorem manual_non402_counted_cex :
    (makePaymentRequestX402Standard cfgWithKey env200 1700000000).signings = 0 ∧
    (makePaymentRequestX402Standard cfgWithKey env200 1700000000).outcome
      = .error ("Expected 402 Payment Required, got " ++ toString 200) ∧
    (searchNews ⟨0, 0⟩ 100000 cfgWithKey (WrappedFetchOutcome.threw "boom")
      env200 1700000000).state.failureCount = 2 :=
  ⟨rfl, rfl, by decide⟩

/-- C7 (amended): when the initial unauthenticated request returns any
status other than 402, the manual flow ends after that single request with
no authorization built or signed, throwing the expected-402 error; but that
outcome is a thrown error, and a searchNews call reaching the fallback with
such an upstream counts it as a payment failure, incrementing the breaker
counter. -/
theorem manual_non402_terminates (cfg : X402Config) (env : ManualEnv)
    (nowSeconds : Nat) (k : String) (st : CircuitState) (now : Nat)
    (net : WrappedFetchOutcome) (ea : String)
    (hkey : cfg.privateKey = some k)
    (hstatus : env.initialStatus ≠ 402)
    (hopen : ¬ (st.failureCount ≥ MAX_FAILURES ∧
      now - st.lastFailureTime < CIRCUIT_BREAKER_DELAY))
    (ha : (searchNewsWithX402Fetch cfg net).outcome = .error ea) :
    (makePaymentRequestX402Standard cfg env nowSeconds).outcome
      = .error ("Expected 402 Payment Required, got " ++ toString env.initialStatus) ∧
    (makePaymentRequestX402Standard cfg env nowSeconds).networkCalls = 1 ∧
    (makePaymentRequestX402Standard cfg env nowSeconds).signings = 0 ∧
    (searchNews st now cfg net env nowSeconds).state.failureCount = st.failureCount + 2 := by
  have hb : (makePaymentRequestX402Standard cfg env nowSeconds).outcome
      = .error ("Expected 402 Payment Required, got " ++ toString env.initialStatus) := by
    simp only [makePaymentRequestX402Standard, hkey, if_pos hstatus]
  refine ⟨hb, ?_, ?_, ?_⟩
  · simp only [makePaymentRequestX402Standard, hkey, if_pos hstatus]
  · simp only [makePaymentRequestX402Standard, hkey, if_pos hstatus]
  · simp only [searchNews, if_neg hopen, ha, hb]

/-- C7 amended witness: the concrete initial-200 scenario of the
counterexample, obtained through the amended theorem. -/
theorem manual_non402_terminates_witness :
    (makePaymentRequestX402Standard cfgWithKey env200 1700000000).outcome
      = .error ("Expected 402 Payment Required, got " ++ toString env200.initialStatus) ∧
    (makePaymentRequestX402Standard cfgWithKey env200 1700000000).networkCalls = 1 ∧
    (makePaymentRequestX402Standard cfgWithKey env200 1700000000).signings = 0 ∧
    (searchNews ⟨0, 0⟩ 100000 cfgWithKey (WrappedFetchOutcome.threw "boom")
      env200 1700000000).state.failureCount = 0 + 2 :=
  manual_non402_terminates cfgWithKey env200 1700000000 "0x1111" ⟨0, 0⟩ 100000
    (WrappedFetchOutcome.threw "boom") "boom" rfl (by decide) (by decide) rfl

/-! Claim C8: classification of a rejected paid retry. -/

/-- C8: when the paid retry comes back with any status other than 200 —
including a 402 whose body is the empty object — the manual flow throws the
payment-failed error whose message names the status code and carries the
stringified upstream error body, and it never returns a success result for
such a status. -/
theorem manual_payment_rejected (cfg : X402Config) (env : ManualEnv)
    (nowSeconds : Nat) (k : String)
    (hkey : cfg.privateKey = some k)
    (h402 : env.initialStatus = 402)
    (hfail : env.finalStatus ≠ 200) :
    (makePaymentRequestX402Standard cfg env nowSeconds).outcome =
      .error ("Payment failed: " ++ toString env.finalStatus ++ " - " ++ env.finalErrorBody) ∧
    ∀ r, (makePaymentRequestX402Standard cfg env nowSeconds).outcome ≠ .ok r := by
  have h : (makePaymentRequestX402Standard cfg env nowSeconds).outcome =
      .error ("Payment failed: " ++ toString env.finalStatus ++ " - " ++ env.finalErrorBody) := by
    simp [makePaymentRequestX402Standard, hkey, h402, hfail]
  refine ⟨h, fun r hco => ?_⟩
  rw [h] at hco
  exact Except.noConfusion hco

/-- C8 witness: a paid retry answered 402 with the empty-object body yields
the payment-failed error naming status 402 and the empty object, and no
success result. -/
theorem manual_payment_rejected_witness :
    (makePaymentRequestX402Standard cfgWithKey envRejected 1700000000).outcome =
      .error ("Payment failed: " ++ toString envRejected.finalStatus
        ++ " - " ++ envRejected.finalErrorBody) ∧
    ∀ r, (makePaymentRequestX402Standard cfgWithKey envRejected 1700000000).outcome ≠ .ok r :=
  manual_payment_rejected cfgWithKey envRejected 1700000000 "0x1111" rfl rfl (by decide)

/-! Claim C9: cache writes on the fresh-fetch path. -/

/-- C9: a getNewsByDateString call that reaches the fresh-fetch path (valid
date, no cached document or one with an empty articles array) returns the
fetched list and performs a cacheNewsData write exactly when that list is
non-empty: an empty fetched list is returned and never written. -/
theorem getNewsByDateString_cache_policy (env : NewsEnv) (fresh : List NewsArticle)
    (hvalid : env.dateValid = true)
    (hmiss : env.existing = none ∨ env.existing = some [])
    (hfetch : env.fetchResult = .ok fresh) :
    (getNewsByDateString env).result = .ok fresh ∧
    (getNewsByDateString env).cacheWrites
      = (if fresh.isEmpty then [] else cacheNewsData fresh) ∧
    (fresh = [] → (getNewsByDateString env).cacheWrites = []) := by
  rcases hmiss with hm | hm
  · refine ⟨?_, ?_, ?_⟩ <;>
      simp [getNewsByDateString, hvalid, hm, hfetch] <;>
      cases fresh <;> simp [cacheNewsData]
  · refine ⟨?_, ?_, ?_⟩ <;>
      simp [getNewsByDateString, hvalid, hm, hfetch] <;>
      cases fresh <;> simp [cacheNewsData]

/-- C9 witness: a valid date with an empty cache and an empty fresh fetch
returns the empty list and performs no cache write. -/
theorem getNewsByDateString_cache_policy_witness :
    (getNewsByDateString envFreshEmpty).result = .ok [] ∧
    (getNewsByDateString envFreshEmpty).cacheWrites
      = (if ([] : List NewsArticle).isEmpty then [] else cacheNewsData []) ∧
    (([] : List NewsArticle) = [] → (getNewsByDateString envFreshEmpty).cacheWrites = []) :=
  getNewsByDateString_cache_policy envFreshEmpty [] rfl (Or.inl rfl) rfl

/-! Claim C10: deduplicateArticles keeps first occurrences.  Helper lemmas
about the loop, generalized over the seen-hash accumulator. -/

/-- The loop output is a sublist of its input, so input order is kept. -/
theorem deduplicateArticlesGo_sublist (seen : List String) (xs : List NewsArticle) :
    List.Sublist (deduplicateArticlesGo seen xs) xs := by
  induction xs generalizing seen with
  | nil => simp [deduplicateArticlesGo]
  | cons a rest ih =>
    by_cases h : a.metadata.contentHash ∈ seen
    · simp only [deduplicateArticlesGo, if_pos h]
      exact (ih seen).cons a
    · simp only [deduplicateArticlesGo, if_neg h]
      exact (ih (a.metadata.contentHash :: seen)).cons₂ a

/-- No article kept by the loop has a hash that was already in seen. -/
theorem deduplicateArticlesGo_not_mem (seen : List String) (xs : List NewsArticle) :
    ∀ a ∈ deduplicateArticlesGo seen xs, a.metadata.contentHash ∉ seen := by
  induction xs generalizing seen with
  | nil =>
    intro a ha
    simp [deduplicateArticlesGo] at ha
  | cons x rest ih =>
    intro a ha
    by_cases h : x.metadata.contentHash ∈ seen
    · rw [deduplicateArticlesGo, if_pos h] at ha
      exact ih seen a ha
    · rw [deduplicateArticlesGo, if_neg h] at ha
      rcases List.mem_cons.mp ha with rfl | ha2
      · exact h
      · intro hmem
        exact ih (x.metadata.contentHash :: seen) a ha2 (List.mem_cons_of_mem _ hmem)

/-- The hashes of the loop output are pairwise distinct. -/
theorem deduplicateArticlesGo_pairwise (seen : List String) (xs : List NewsArticle) :
    (deduplicateArticlesGo seen xs).Pairwise
      (fun a b => a.metadata.contentHash ≠ b.metadata.contentHash) := by
  induction xs generalizing seen with
  | nil => simp [deduplicateArticlesGo]
  | cons x rest ih =>
    by_cases h : x.metadata.contentHash ∈ seen
    · simp only [deduplicateArticlesGo, if_pos h]
      exact ih seen
    · simp only [deduplicateArticlesGo, if_neg h]
      refine List.Pairwise.cons ?_ (ih (x.metadata.contentHash :: seen))
      intro b hb heq
      exact deduplicateArticlesGo_not_mem _ rest b hb (heq ▸ List.mem_cons_self _ _)

/-- The loop does not move the first article carrying any hash that was not
already seen: searching the output for a hash finds the same article as
searching the input. -/
theorem deduplicateArticlesGo_find (seen : List String) (xs : List NewsArticle)
    (h : String) (hh : h ∉ seen) :
    (deduplicateArticlesGo seen xs).find? (fun a => a.metadata.contentHash == h)
      = xs.find? (fun a => a.metadata.contentHash == h) := by
  induction xs generalizing seen with
  | nil => rfl
  | cons x rest ih =>
    by_cases hx : x.metadata.contentHash ∈ seen
    · have hne : (x.metadata.contentHash == h) = false := by
        refine beq_eq_false_iff_ne.mpr ?_
        intro he
        exact hh (he ▸ hx)
      rw [deduplicateArticlesGo, if_pos hx, ih seen hh]
      simp [List.find?_cons, hne]
    · rw [deduplicateArticlesGo, if_neg hx]
      by_cases hxh : x.metadata.contentHash = h
      · have hp : (x.metadata.contentHash == h) = true := beq_iff_eq.mpr hxh
        simp [List.find?_cons, hp]
      · have hp : (x.metadata.contentHash == h) = false := beq_eq_false_iff_ne.mpr hxh
        have hrec : (deduplicateArticlesGo (x.metadata.contentHash :: seen) rest).find?
            (fun a => a.metadata.contentHash == h)
            = rest.find? (fun a => a.metadata.contentHash == h) := by
          refine ih (x.metadata.contentHash :: seen) ?_
          intro hmem
          rcases List.mem_cons.mp hmem with he | hm
          · exact hxh he.symm
          · exact hh hm
        simp [List.find?_cons, hp, hrec]

/-- In a list with pairwise-distinct hashes, searching for the hash of a
member finds that member. -/
theorem find_self_of_pairwise (ys : List NewsArticle) :
    ys.Pairwise (fun a b => a.metadata.contentHash ≠ b.metadata.contentHash) →
    ∀ a ∈ ys,
      ys.find? (fun b => b.metadata.contentHash == a.metadata.contentHash) = some a := by
  induction ys with
  | nil =>
    intro _ a ha
    cases ha
  | cons y rest ih =>
    intro hp a ha
    rcases List.mem_cons.mp ha with rfl | ha2
    · simp [List.find?_cons]
    · have hy : y.metadata.contentHash ≠ a.metadata.contentHash :=
        (List.pairwise_cons.mp hp).1 a ha2
      have hny : (y.metadata.contentHash == a.metadata.contentHash) = false :=
        beq_eq_false_iff_ne.mpr hy
      have hrec := ih (List.pairwise_cons.mp hp).2 a ha2
      simp [List.find?_cons, hny, hrec]

/-- The loop fixes any list whose hashes are pairwise distinct and disjoint
from seen. -/
theorem deduplicateArticlesGo_of_pairwise (ys : List NewsArticle) :
    ∀ seen : List String,
      ys.Pairwise (fun a b => a.metadata.contentHash ≠ b.metadata.contentHash) →
      (∀ a ∈ ys, a.metadata.contentHash ∉ seen) →
      deduplicateArticlesGo seen ys = ys := by
  induction ys with
  | nil =>
    intro seen _ _
    rfl
  | cons y rest ih =>
    intro seen hp hs
    have hy : y.metadata.contentHash ∉ seen := hs y (List.mem_cons_self _ _)
    rw [deduplicateArticlesGo, if_neg hy]
    congr 1
    refine ih (y.metadata.contentHash :: seen) (List.pairwise_cons.mp hp).2 ?_
    intro a ha hmem
    rcases List.mem_cons.mp hmem with he | hm
    · exact (List.pairwise_cons.mp hp).1 a ha he.symm
    · exact hs a (List.mem_cons_of_mem _ ha) hm

/-- C10: deduplicateArticles returns exactly the first occurrence of each
metadata.contentHash in input order: the output is a sublist of the input
(order preserved), its hashes are pairwise distinct, searching the output
for any hash finds the same article as searching the input, every kept
article is the first article of its hash in the input, and the function is
idempotent. -/
theorem deduplicateArticles_spec (xs : List NewsArticle) :
    List.Sublist (deduplicateArticles xs) xs ∧
    (deduplicateArticles xs).Pairwise
      (fun a b => a.metadata.contentHash ≠ b.metadata.contentHash) ∧
    (∀ h : String, (deduplicateArticles xs).find? (fun a => a.metadata.contentHash == h)
      = xs.find? (fun a => a.metadata.contentHash == h)) ∧
    (∀ a ∈ deduplicateArticles xs,
      xs.find? (fun b => b.metadata.contentHash == a.metadata.contentHash) = some a) ∧
    deduplicateArticles (deduplicateArticles xs) = deduplicateArticles xs := by
  refine ⟨deduplicateArticlesGo_sublist [] xs, deduplicateArticlesGo_pairwise [] xs,
    ?_, ?_, ?_⟩
  · intro h
    exact deduplicateArticlesGo_find [] xs h (List.not_mem_nil h)
  · intro a ha
    have h1 := find_self_of_pairwise (deduplicateArticles xs)
      (deduplicateArticlesGo_pairwise [] xs) a ha
    have h2 := deduplicateArticlesGo_find [] xs a.metadata.contentHash
      (List.not_mem_nil _)
    exact h2.symm.trans h1
  · exact deduplicateArticlesGo_of_pairwise (deduplicateArticles xs) []
      (deduplicateArticlesGo_pairwise [] xs) (fun a _ => List.not_mem_nil _)

/-- C10 witness: on two distinct articles sharing the hash h1 the function
keeps only the first, the result is a sublist of the input, and applying the
function again changes nothing. -/
theorem deduplicateArticles_spec_witness :
    List.Sublist (deduplicateArticles [artA, artB]) [artA, artB] ∧
    deduplicateArticles (deduplicateArticles [artA, artB])
      = deduplicateArticles [artA, artB] ∧
    deduplicateArticles [artA, artB] = [artA] :=
  ⟨(deduplicateArticles_spec [artA, artB]).1,
    (deduplicateArticles_spec [artA, artB]).2.2.2.2,
    by decide⟩

end X402News
